import Mathlib

/-!
Verification development for the golf physics/match core of
src/Windows_version/main_with_menu.c.  Floating-point arithmetic of the C
source is modelled by exact real arithmetic; the C library functions
sqrtf, cosf and sinf are modelled by Real.sqrt, Real.cos and Real.sin.
The process-wide rand() stream is modelled by an abstract stream of draws
in the unit interval.  Structure and constant names follow the source.
-/

namespace Golfero

/-! ## Physics constants (lines 16-34 of the source) -/

noncomputable def GRAVITY_ACCEL : ℝ := 800.0
noncomputable def DT : ℝ := 0.016
def MAP_SIZE : ℤ := 32
def TILE_SIZE : ℤ := 20
noncomputable def LAUNCH_SCALE : ℝ := 4.0
noncomputable def Z_SCALE : ℝ := 0.6
noncomputable def AIR_DRAG_COEF : ℝ := 1.6
noncomputable def MAX_DRAG_DISTANCE : ℝ := 150.0
noncomputable def STOP_SPEED : ℝ := 2.0
noncomputable def MAX_WIND_STRENGTH : ℝ := 50.0
noncomputable def WIND_SMOOTHNESS : ℝ := 0.25
noncomputable def GROUND_WIND_FACTOR : ℝ := 0.08
noncomputable def MAGNUS_COEF : ℝ := 0.0012
noncomputable def MAGNUS_MAX : ℝ := 10.0
noncomputable def SPIN_AIR_DAMP : ℝ := 0.996
noncomputable def SPIN_GROUND_DAMP : ℝ := 0.985
noncomputable def LOW_SPEED_KILL : ℝ := 4.5
noncomputable def SCREEN_WIDTH : ℝ := 640
noncomputable def SCREEN_HEIGHT : ℝ := 640

/-! ## Utility functions (lines 96-105) -/

def clampInt (v a b : ℤ) : ℤ := if v < a then a else if v > b then b else v

noncomputable def clampf (v a b : ℝ) : ℝ := if v < a then a else if v > b then b else v

/-! ## Colors, images and the terrain model (lines 53-60, 108-150) -/

structure Color where
  r : ℕ
  g : ℕ
  b : ℕ

structure TerrainProps where
  rollDamping : ℝ
  bounceFactor : ℝ
  launchFactor : ℝ
  isHazard : Bool
  isSolid : Bool
  isSand : Bool

/-- The neutral default terrain tuple built at the top of getTerrainProps. -/
noncomputable def defaultProps : TerrainProps :=
  { rollDamping := 0.96, bounceFactor := 0.60, launchFactor := 1.0,
    isHazard := false, isSolid := false, isSand := false }

/-- Terrain classifier, a direct transcription of getTerrainProps
(lines 108-141); the unsigned-char components are read into ints, so the
comparisons are over ℤ. -/
noncomputable def getTerrainProps (c : Color) : TerrainProps :=
  let R : ℤ := c.r
  let G : ℤ := c.g
  let B : ℤ := c.b
  if R < 30 ∧ G < 30 ∧ B < 30 then defaultProps
  else if R > 150 ∧ R > G + 40 ∧ R > B + 40 then defaultProps
  else if B > 120 ∧ B > G + 20 ∧ B > R + 20 then
    { rollDamping := 0.92, bounceFactor := 0.0, launchFactor := 0.0,
      isHazard := true, isSolid := false, isSand := false }
  else if (R < 70 ∧ G < 80 ∧ B < 70) ∧ G ≤ R + 20 then
    { rollDamping := 0.40, bounceFactor := 0.0, launchFactor := 0.40,
      isHazard := false, isSolid := true, isSand := false }
  else if R > 130 ∧ G > 130 ∧ B < 100 ∧ |R - G| < 30 ∧ R + G > 260 ∧ G < 200 then
    { rollDamping := 0.45, bounceFactor := 0.05, launchFactor := 0.35,
      isHazard := false, isSolid := false, isSand := true }
  else if G > 200 ∧ R > 80 ∧ B < 150 ∧ G > R ∧ G > B then
    { rollDamping := 0.98, bounceFactor := 0.75, launchFactor := 1.05,
      isHazard := false, isSolid := false, isSand := false }
  else if G ≥ 85 ∧ G ≤ 170 ∧ G > R + 8 ∧ G > B + 8 ∧ R ≤ 120 ∧ B ≤ 120 then
    { rollDamping := 0.80, bounceFactor := 0.55, launchFactor := 0.85,
      isHazard := false, isSolid := false, isSand := false }
  else defaultProps

/-- A raster course map: dimensions plus a pixel lookup, standing in for
the raylib Image plus GetImageColor. -/
structure Image where
  width : ℤ
  height : ℤ
  pixel : ℤ → ℤ → Color

def GetImageColor (img : Image) (x y : ℤ) : Color := img.pixel x y

/-- Terrain query by continuous position (getTerrainAt, lines 143-150).
The float-to-int cast truncates; the operand is clamped nonnegative, so
truncation is Int.floor. -/
noncomputable def getTerrainAt (map : Image) (x y : ℝ) : TerrainProps :=
  let x1 := clampf x 0 (SCREEN_WIDTH - 1)
  let y1 := clampf y 0 (SCREEN_HEIGHT - 1)
  let px := clampInt ⌊x1 / SCREEN_WIDTH * (map.width : ℝ)⌋ 0 (map.width - 1)
  let py := clampInt ⌊y1 / SCREEN_HEIGHT * (map.height : ℝ)⌋ 0 (map.height - 1)
  getTerrainProps (GetImageColor map px py)

/-! ## Wind process (lines 62-67, 152-162) -/

structure Wind where
  dirX : ℝ
  dirY : ℝ
  targetStrength : ℝ
  appliedStrength : ℝ
  timer : ℝ

/-- One wind tick (updateWind, lines 152-162).  The three rand()/RAND_MAX
draws consumed at a timer reset are supplied as the components of u, each
in the unit interval; when the timer does not expire they are unused,
exactly as the C code draws nothing. -/
noncomputable def updateWind (w : Wind) (u : ℝ × ℝ × ℝ) (dt : ℝ) : Wind :=
  let timer1 := w.timer - dt
  if timer1 ≤ 0 then
    let target := u.2.1 * MAX_WIND_STRENGTH
    { dirX := Real.cos (u.1 * (2 * Real.pi)),
      dirY := Real.sin (u.1 * (2 * Real.pi)),
      targetStrength := target,
      appliedStrength := w.appliedStrength + (target - w.appliedStrength) * WIND_SMOOTHNESS,
      timer := 3.0 + u.2.2 * 3.0 }
  else
    { w with
      timer := timer1
      appliedStrength :=
        w.appliedStrength + (w.targetStrength - w.appliedStrength) * WIND_SMOOTHNESS }

/-- Wind state installed at game initialisation (lines 619-623). -/
noncomputable def initWind : Wind :=
  { dirX := 1.0, dirY := 0.0, targetStrength := 0.0, appliedStrength := 0.0, timer := 4.0 }

/-- The wind state after n ticks driven by the draw stream sigma. -/
noncomputable def windTicks (sigma : ℕ → ℝ × ℝ × ℝ) (dt : ℝ) : ℕ → Wind
  | 0 => initWind
  | n + 1 => updateWind (windTicks sigma dt n) (sigma n) dt

/-! ## Ball state (lines 69-79, 186-195) -/

structure Vec2 where
  x : ℝ
  y : ℝ

structure Ball where
  x : ℝ
  y : ℝ
  z : ℝ
  vx : ℝ
  vy : ℝ
  vz : ℝ
  spinX : ℝ
  spinY : ℝ
  spinZ : ℝ
  radius : ℝ
  inAir : Bool
  isMoving : Bool
  lastX : ℝ
  lastY : ℝ
  angle : ℝ
  userSetSpin : Bool

/-- Fresh ball at a start position (initBall, lines 186-195). -/
noncomputable def initBall (startPos : Vec2) : Ball :=
  { x := startPos.x, y := startPos.y, z := 0.0,
    vx := 0.0, vy := 0.0, vz := 0.0,
    spinX := 0.0, spinY := 0.0, spinZ := 0.0,
    radius := 6.0, inAir := false, isMoving := false,
    lastX := startPos.x, lastY := startPos.y,
    angle := 45.0, userSetSpin := false }

/-! ## Shot launch (shootBall, lines 197-233) -/

noncomputable def shootBall (ball : Ball) (map : Image)
    (dirx diry power angleDeg : ℝ) : Ball :=
  let len0 := Real.sqrt (dirx * dirx + diry * diry)
  let dx0 : ℝ := if len0 < 1e-6 then 0.0 else dirx
  let dy0 : ℝ := if len0 < 1e-6 then -1.0 else diry
  let len : ℝ := if len0 < 1e-6 then 1.0 else len0
  let dx := dx0 / len
  let dy := dy0 / len
  let terrain := getTerrainAt map ball.x ball.y
  let angleRad := angleDeg * (Real.pi / 180)
  let baseLaunch0 := power * LAUNCH_SCALE * terrain.launchFactor
  let baseLaunch := if terrain.isSand = true then baseLaunch0 * 0.45 else baseLaunch0
  let horizontalSpeed := baseLaunch * Real.cos angleRad
  let vx := horizontalSpeed * dx
  let vy := horizontalSpeed * dy
  let vz := baseLaunch * Real.sin angleRad * Z_SCALE
  let spinY1 : ℝ :=
    if ball.userSetSpin = true then ball.spinY + baseLaunch * 0.005 else baseLaunch * 0.02
  let spinX1 : ℝ :=
    if ball.userSetSpin = true then ball.spinX + -dx * baseLaunch * 0.0025
    else -dx * baseLaunch * 0.01
  let spinX2 := clampf spinX1 (-(baseLaunch * 0.08)) (baseLaunch * 0.08)
  let spinY2 := clampf spinY1 (-(baseLaunch * 0.25)) (baseLaunch * 0.25)
  let lastX1 : ℝ := if ball.z ≤ 0 then ball.x else ball.lastX
  let lastY1 : ℝ := if ball.z ≤ 0 then ball.y else ball.lastY
  { ball with
    vx := vx, vy := vy, vz := vz
    spinX := spinX2, spinY := spinY2
    inAir := decide (vz > 1), isMoving := true
    lastX := lastX1, lastY := lastY1, userSetSpin := false }

/-! ## Ball simulator (updateBall, lines 235-340) -/

/-- The common tail of a moving tick that was not ended by the hazard
early return: air drag (lines 318-321), the secondary rolling-friction
pass (lines 323-327), the position clamp (lines 329-330) and the stop
conditions (lines 332-339). -/
noncomputable def ballFinish (map : Image) (dt : ℝ) (airborne bounced : Bool)
    (b : Ball) : Ball :=
  let b1 : Ball :=
    if airborne = true ∧ bounced = false then
      { b with
        vx := b.vx - b.vx * AIR_DRAG_COEF * dt
        vy := b.vy - b.vy * AIR_DRAG_COEF * dt }
    else b
  let b2 : Ball :=
    if b1.z ≤ 0 ∧ b1.inAir = false ∧ (0 < |b1.vx| ∨ 0 < |b1.vy|) then
      { b1 with
        vx := b1.vx * (getTerrainAt map b1.x b1.y).rollDamping
        vy := b1.vy * (getTerrainAt map b1.x b1.y).rollDamping }
    else b1
  let b3 : Ball :=
    { b2 with
      x := clampf b2.x 0 (SCREEN_WIDTH - 1)
      y := clampf b2.y 0 (SCREEN_HEIGHT - 1) }
  let speed := Real.sqrt (b3.vx * b3.vx + b3.vy * b3.vy)
  if speed < STOP_SPEED ∧ b3.z ≤ 0.05 ∧ |b3.vz| < 0.2 then
    { b3 with vx := 0, vy := 0, vz := 0, inAir := false, isMoving := false }
  else if speed < LOW_SPEED_KILL ∧ b3.z ≤ 0.05 ∧ b3.inAir = false then
    { b3 with vx := 0, vy := 0, isMoving := false }
  else b3

/-- One fixed-timestep tick of a ball (updateBall, lines 235-340). -/
noncomputable def updateBall (ball : Ball) (map : Image) (wind : Wind) (dt : ℝ) : Ball :=
  if ball.isMoving = false then ball else
  let vzI := ball.vz - GRAVITY_ACCEL * dt
  let xI := ball.x + ball.vx * dt
  let yI := ball.y + ball.vy * dt
  let zI := ball.z + vzI * dt
  let airborne : Bool := decide (zI > 1) || ball.inAir
  let wf : ℝ := if airborne = true then 1 else GROUND_WIND_FACTOR
  let vxW := ball.vx + wind.dirX * wind.appliedStrength * dt * wf
  let vyW := ball.vy + wind.dirY * wind.appliedStrength * dt * wf
  let vxM : ℝ :=
    if airborne = true then
      vxW + clampf (-ball.spinY * vyW * MAGNUS_COEF) (-MAGNUS_MAX) MAGNUS_MAX
    else vxW
  let vyM : ℝ :=
    if airborne = true then
      vyW + clampf (ball.spinY * vxW * MAGNUS_COEF) (-MAGNUS_MAX) MAGNUS_MAX
    else vyW
  let sd : ℝ := if airborne = true then SPIN_AIR_DAMP else SPIN_GROUND_DAMP
  let mid : Ball :=
    { ball with
      x := xI, y := yI, z := zI
      vx := vxM, vy := vyM, vz := vzI
      spinX := ball.spinX * sd, spinY := ball.spinY * sd
      spinZ := ball.spinZ * sd }
  let terrain := getTerrainAt map xI yI
  if zI ≤ 0 then
    let vzK : ℝ := if |vzI| < 6 then 0 else vzI
    let inAirK : Bool := if |vzI| < 6 then false else ball.inAir
    let landed : Ball := { mid with z := 0, vz := vzK, inAir := inAirK }
    if terrain.isHazard = true then
      { landed with
        x := ball.lastX, y := ball.lastY
        vx := 0, vy := 0, vz := 0, inAir := false, isMoving := false }
    else if terrain.isSand = true then
      let spd := Real.sqrt (landed.vx * landed.vx + landed.vy * landed.vy)
      let l2 : Ball :=
        if spd < 40 then
          { landed with vx := 0, vy := 0, vz := 0, inAir := false, isMoving := false }
        else
          { landed with
            vx := landed.vx * 0.06, vy := landed.vy * 0.06
            vz := 0, inAir := false }
      ballFinish map dt airborne false { l2 with lastX := l2.x, lastY := l2.y }
    else if terrain.isSolid = true then
      ballFinish map dt airborne false
        { landed with
          x := ball.lastX, y := ball.lastY
          vx := landed.vx * (-0.25), vy := landed.vy * (-0.25)
          vz := 0, inAir := false }
    else
      let vxR := landed.vx * terrain.rollDamping
      let vyR := landed.vy * terrain.rollDamping
      if terrain.bounceFactor > 0.01 ∧ landed.vz < -10 then
        let vzB := -landed.vz * terrain.bounceFactor
        let inAirB : Bool := decide (vzB > 4)
        let lb : Ball := { landed with vx := vxR, vy := vyR, vz := vzB, inAir := inAirB }
        ballFinish map dt airborne true
          (if inAirB = true then lb else { lb with lastX := lb.x, lastY := lb.y })
      else
        ballFinish map dt airborne false
          { landed with
            vx := vxR, vy := vyR, vz := 0, inAir := false
            lastX := xI, lastY := yI }
  else
    ballFinish map dt airborne false mid

/-- Hole proximity test (isNearHole, lines 351-355). -/
noncomputable def isNearHole (x y : ℝ) (holePos : Vec2) : Prop :=
  ¬ holePos.x < 0 ∧
    Real.sqrt ((x - holePos.x) * (x - holePos.x) + (y - holePos.y) * (y - holePos.y)) < 15

noncomputable instance (x y : ℝ) (holePos : Vec2) : Decidable (isNearHole x y holePos) := by
  unfold isNearHole; infer_instance

/-! ## Match controller and command channel (lines 45-50, 459-470, 508-543
and the VS-mode portion of main, lines 637-842) -/

inductive TurnType where
  | player
  | ai
  | finished
deriving DecidableEq

structure AICommand where
  dirx : ℝ
  diry : ℝ
  angle : ℝ
  power : ℝ
  spinx : ℝ
  spiny : ℝ

structure GameStateMsg where
  ball_x : ℝ
  ball_y : ℝ
  ball_z : ℝ
  hole_x : ℝ
  hole_y : ℝ
  wind_x : ℝ
  wind_y : ℝ
  wind_strength : ℝ
  strokes : ℕ
  stopped : Bool
  won : Bool

/-- The match state: the GameState struct of the source together with the
turn and per-competitor stroke locals of main (currentTurn, playerStrokes,
aiStrokes). -/
structure GameState where
  ball : Ball
  aiBall : Ball
  wind : Wind
  strokes : ℕ
  playerStrokes : ℕ
  aiStrokes : ℕ
  gameWon : Bool
  aiWon : Bool
  holePos : Vec2
  turn : TurnType

/-- Builds the fixed-layout outbound snapshot record
(sendGameStateWithWon, lines 508-532). -/
def sendGameStateWithWon (game : GameState) (won : Bool) : GameStateMsg :=
  { ball_x := game.ball.x
    ball_y := game.ball.y
    ball_z := game.ball.z
    hole_x := game.holePos.x
    hole_y := game.holePos.y
    wind_x := game.wind.dirX
    wind_y := game.wind.dirY
    wind_strength := game.wind.appliedStrength
    strokes := game.strokes
    stopped := !game.ball.isMoving
    won := won }

/-- Non-versus publishing (sendGameState, lines 534-536). -/
def sendGameState (game : GameState) : GameStateMsg :=
  sendGameStateWithWon game game.gameWon

/-- VS-mode publishing of the AI ball state (lines 729-738): the player
and AI balls are swapped for the duration of the send and the won field is
hard-coded to false. -/
def vsSendAiState (game : GameState) : GameStateMsg :=
  sendGameStateWithWon { game with ball := game.aiBall } false

/-- Player drag-release launch in VS mode (lines 643-676).  The drag
vector, when a release happened this frame, is the argument of shoot;
rawPower is derived from it exactly as in the source. -/
noncomputable def vsPlayerShoot (map : Image) (shoot : Option (ℝ × ℝ))
    (s : GameState) : GameState :=
  match shoot with
  | none => s
  | some (dx, dy) =>
    if s.turn = TurnType.player ∧ s.ball.isMoving = false ∧ s.gameWon = false then
      let rawPower0 := Real.sqrt (dx * dx + dy * dy)
      let rawPower := if rawPower0 > MAX_DRAG_DISTANCE then MAX_DRAG_DISTANCE else rawPower0
      if rawPower > 5 then
        let mag := Real.sqrt (dx * dx + dy * dy) + 1e-6
        { s with
          ball := shootBall s.ball map (dx / mag) (dy / mag) rawPower s.ball.angle
          strokes := s.strokes + 1
          playerStrokes := s.playerStrokes + 1
          turn := TurnType.ai }
      else s
    else s

/-- Player win check with the forced turn override (lines 712-720). -/
noncomputable def vsCheckPlayerWin (s : GameState) : GameState :=
  if s.ball.isMoving = false ∧ s.gameWon = false ∧ isNearHole s.ball.x s.ball.y s.holePos then
    { s with
      gameWon := true
      turn := if s.aiWon = false then TurnType.ai else s.turn }
  else s

/-- AI win check (lines 723-726). -/
noncomputable def vsCheckAiWin (s : GameState) : GameState :=
  if s.aiBall.isMoving = false ∧ s.aiWon = false ∧
      isNearHole s.aiBall.x s.aiBall.y s.holePos then
    { s with aiWon := true }
  else s

/-- AI launch on its turn (lines 742-757).  A command being available on
the non-blocking pipe this frame is modelled by cmd being some. -/
noncomputable def vsAiShoot (map : Image) (cmd : Option AICommand)
    (s : GameState) : GameState :=
  if s.turn = TurnType.ai ∧ s.aiBall.isMoving = false ∧ s.aiWon = false then
    match cmd with
    | some c =>
      { s with
        aiBall := shootBall s.aiBall map c.dirx c.diry c.power c.angle
        aiStrokes := s.aiStrokes + 1
        turn := if s.gameWon = false then TurnType.player else s.turn }
    | none => s
  else s

/-- Forced hand-back to the player when the AI has finished (lines 760-763). -/
def vsSwitchToPlayer (s : GameState) : GameState :=
  if s.turn = TurnType.ai ∧ s.aiWon = true ∧ s.gameWon = false ∧
      s.aiBall.isMoving = false then
    { s with turn := TurnType.player }
  else s

/-- Forced hand-over to the AI when the player has finished (lines 766-769). -/
def vsSwitchToAi (s : GameState) : GameState :=
  if s.turn = TurnType.player ∧ s.gameWon = true ∧ s.aiWon = false ∧
      s.ball.isMoving = false then
    { s with turn := TurnType.ai }
  else s

/-- The turn and win evaluation of one VS-mode frame, in source order:
player launch (line 657), player win check (712), AI win check (723), AI
launch (742), then the two forced switches (760, 766). -/
noncomputable def vsLogic (map : Image) (shoot : Option (ℝ × ℝ))
    (cmd : Option AICommand) (s : GameState) : GameState :=
  vsSwitchToAi (vsSwitchToPlayer (vsAiShoot map cmd
    (vsCheckAiWin (vsCheckPlayerWin (vsPlayerShoot map shoot s)))))

/-- One full VS-mode frame: the turn and win evaluation followed by the
wind tick (line 829) and the two ball ticks (lines 830-835). -/
noncomputable def vsFrame (map : Image) (shoot : Option (ℝ × ℝ))
    (cmd : Option AICommand) (u : ℝ × ℝ × ℝ) (dt : ℝ) (s : GameState) : GameState :=
  let s1 := vsLogic map shoot cmd s
  let s2 := { s1 with wind := updateWind s1.wind u dt }
  let s3 := { s2 with ball := updateBall s2.ball map s2.wind dt }
  { s3 with aiBall := updateBall s3.aiBall map s3.wind dt }

/-- The explicit R-key reset in VS mode (lines 814-827). -/
noncomputable def vsReset (startPos : Vec2) (s : GameState) : GameState :=
  { s with
    ball := initBall startPos
    aiBall := initBall startPos
    strokes := 0
    gameWon := false
    aiWon := false
    playerStrokes := 0
    aiStrokes := 0
    turn := TurnType.player }

/-- Replaces the two ball states, standing for an arbitrary stretch of
physics evolution between the logic evaluations of different frames. -/
def withBalls (s : GameState) (b a : Ball) : GameState :=
  { s with ball := b, aiBall := a }

/-! ## Concrete fixtures used by the witnesses -/

/-- A color that falls through every classifier band to the default. -/
def cGray : Color := ⟨200, 200, 200⟩

/-- A water color, classified as hazard. -/
def cBlue : Color := ⟨0, 0, 200⟩

/-- A course map that is default terrain everywhere. -/
def mapGray : Image := ⟨32, 32, fun _ _ => cGray⟩

/-- A course map that is hazard everywhere. -/
def mapBlue : Image := ⟨32, 32, fun _ _ => cBlue⟩

/-- A degenerate draw stream for the wind witness. -/
noncomputable def constStream : ℕ → ℝ × ℝ × ℝ := fun _ => (0, 0, 0)

/-- A resting ball fixture at the end-to-end scenario start position. -/
noncomputable def ballC1 : Ball := initBall ⟨110, 490⟩

/-- A moving grounded (rolling) ball whose next tick ends at ground level
on default terrain with impact speed above the bounce minimum. -/
noncomputable def ballC2 : Ball :=
  { x := 100, y := 100, z := 0, vx := 50, vy := 0, vz := 0,
    spinX := 0, spinY := 0, spinZ := 0, radius := 6,
    inAir := false, isMoving := true, lastX := 100, lastY := 100,
    angle := 45, userSetSpin := false }

/-- A moving airborne ball about to land on hazard terrain. -/
noncomputable def ballC3 : Ball :=
  { x := 300, y := 300, z := 0.1, vx := 20, vy := 10, vz := 0,
    spinX := 1, spinY := 2, spinZ := 3, radius := 6,
    inAir := true, isMoving := true, lastX := 250, lastY := 240,
    angle := 45, userSetSpin := false }

/-! ## Theorems -/

/-- C7: getTerrainProps is a total deterministic Lean function on the color
domain (every color yields exactly one property tuple by first-match
priority), and every hole-marker color (all components below 30) returns
the neutral default tuple and in particular is never classified hazard. -/
theorem getTerrainProps_hole_marker_neutral (r g b : ℕ)
    (hr : r < 30) (hg : g < 30) (hb : b < 30) :
    getTerrainProps ⟨r, g, b⟩ = defaultProps ∧
      (getTerrainProps ⟨r, g, b⟩).isHazard = false := by
  have h : ((r : ℤ) < 30 ∧ (g : ℤ) < 30 ∧ (b : ℤ) < 30) := by
    refine ⟨?_, ?_, ?_⟩ <;> exact_mod_cast (by assumption)
  have hmain : getTerrainProps ⟨r, g, b⟩ = defaultProps := by
    simp only [getTerrainProps]
    rw [if_pos h]
  exact ⟨hmain, by rw [hmain]; rfl⟩

/-- Witness for C7 at the concrete hole-marker color (0,0,0). -/
theorem getTerrainProps_hole_marker_neutral_witness :
    getTerrainProps ⟨0, 0, 0⟩ = defaultProps ∧
      (getTerrainProps ⟨0, 0, 0⟩).isHazard = false :=
  getTerrainProps_hole_marker_neutral 0 0 0 (by norm_num) (by norm_num) (by norm_num)

/-- C10: every VS-mode snapshot published outward carries won = false no
matter what the competitors' win flags are, while non-versus publishing
reports the true player win flag. -/
theorem vs_snapshot_won_false (game : GameState) :
    (vsSendAiState game).won = false ∧ (sendGameState game).won = game.gameWon :=
  ⟨rfl, rfl⟩

/-- C6: a tick of the ball simulator leaves a resting ball completely
unchanged, whatever the wind, terrain map and timestep. -/
theorem updateBall_resting_unchanged (ball : Ball) (map : Image) (wind : Wind)
    (dt : ℝ) (h : ball.isMoving = false) :
    updateBall ball map wind dt = ball := by
  unfold updateBall
  rw [if_pos h]

/-- Witness for C6: a freshly initialised (resting) ball is unchanged. -/
theorem updateBall_resting_unchanged_witness :
    updateBall (initBall ⟨100, 100⟩) mapGray initWind DT = initBall ⟨100, 100⟩ :=
  updateBall_resting_unchanged (initBall ⟨100, 100⟩) mapGray initWind DT rfl

/-- C9: shootBall is total on the aim domain; a degenerate (below the
guard threshold) aim vector is replaced by the fixed fallback direction
(0,-1), so the launch proceeds exactly as if that direction had been
given, and no input is rejected. -/
theorem shootBall_degenerate_fallback (ball : Ball) (map : Image)
    (power angleDeg dirx diry : ℝ)
    (h : Real.sqrt (dirx * dirx + diry * diry) < 1e-6) :
    shootBall ball map dirx diry power angleDeg =
      shootBall ball map 0 (-1) power angleDeg := by
  have h1 : ((0:ℝ) * 0 + (-1) * (-1)) = 1 := by norm_num
  have h2 : ¬ Real.sqrt ((0:ℝ) * 0 + (-1) * (-1)) < 1e-6 := by
    rw [h1, Real.sqrt_one]; norm_num
  simp only [shootBall, if_pos h, if_neg h2, h1, Real.sqrt_one]
  norm_num

/-- Witness for C9 at the exactly-zero aim vector. -/
theorem shootBall_degenerate_fallback_witness :
    shootBall ballC1 mapGray 0 0 10 45 = shootBall ballC1 mapGray 0 (-1) 10 45 :=
  shootBall_degenerate_fallback ballC1 mapGray 10 45 0 0
    (by rw [show ((0:ℝ) * 0 + 0 * 0) = 0 by norm_num, Real.sqrt_zero]; norm_num)

/-- C1: for a launch with a non-degenerate aim vector, the initial
velocity is the documented split of baseLaunch = power * LAUNCH_SCALE *
launchFactor (times the fixed 0.45 sand penalty on sand) into a
horizontal part along the normalized aim direction scaled by cos of the
loft angle, and a vertical part scaled by sin of the loft angle and
Z_SCALE. -/
theorem shootBall_launch_formula (ball : Ball) (map : Image)
    (dirx diry power angleDeg : ℝ)
    (_hrest : ball.isMoving = false)
    (hlen : ¬ Real.sqrt (dirx * dirx + diry * diry) < 1e-6) :
    (shootBall ball map dirx diry power angleDeg).vx
      = power * LAUNCH_SCALE * (getTerrainAt map ball.x ball.y).launchFactor
        * (if (getTerrainAt map ball.x ball.y).isSand = true then 0.45 else 1)
        * Real.cos (angleDeg * (Real.pi / 180))
        * (dirx / Real.sqrt (dirx * dirx + diry * diry)) ∧
    (shootBall ball map dirx diry power angleDeg).vy
      = power * LAUNCH_SCALE * (getTerrainAt map ball.x ball.y).launchFactor
        * (if (getTerrainAt map ball.x ball.y).isSand = true then 0.45 else 1)
        * Real.cos (angleDeg * (Real.pi / 180))
        * (diry / Real.sqrt (dirx * dirx + diry * diry)) ∧
    (shootBall ball map dirx diry power angleDeg).vz
      = power * LAUNCH_SCALE * (getTerrainAt map ball.x ball.y).launchFactor
        * (if (getTerrainAt map ball.x ball.y).isSand = true then 0.45 else 1)
        * Real.sin (angleDeg * (Real.pi / 180))
        * Z_SCALE := by
  simp only [shootBall, if_neg hlen]
  refine ⟨?_, ?_, ?_⟩ <;> split_ifs with hs <;>
    rw [div_eq_mul_inv] <;> ring

/-- Witness for C1: the end-to-end scenario input, direction
(0.707,-0.707), power 31.2, loft 35 degrees, on a uniformly default
(fairway: roll 0.96, bounce 0.60, launch 1.00) map from the scenario
start position. -/
theorem shootBall_launch_formula_witness :
    (shootBall ballC1 mapGray 0.707 (-0.707) 31.2 35).vx
      = 31.2 * LAUNCH_SCALE * (getTerrainAt mapGray ballC1.x ballC1.y).launchFactor
        * (if (getTerrainAt mapGray ballC1.x ballC1.y).isSand = true then 0.45 else 1)
        * Real.cos (35 * (Real.pi / 180))
        * (0.707 / Real.sqrt (0.707 * 0.707 + -0.707 * -0.707)) ∧
    (shootBall ballC1 mapGray 0.707 (-0.707) 31.2 35).vy
      = 31.2 * LAUNCH_SCALE * (getTerrainAt mapGray ballC1.x ballC1.y).launchFactor
        * (if (getTerrainAt mapGray ballC1.x ballC1.y).isSand = true then 0.45 else 1)
        * Real.cos (35 * (Real.pi / 180))
        * (-0.707 / Real.sqrt (0.707 * 0.707 + -0.707 * -0.707)) ∧
    (shootBall ballC1 mapGray 0.707 (-0.707) 31.2 35).vz
      = 31.2 * LAUNCH_SCALE * (getTerrainAt mapGray ballC1.x ballC1.y).launchFactor
        * (if (getTerrainAt mapGray ballC1.x ballC1.y).isSand = true then 0.45 else 1)
        * Real.sin (35 * (Real.pi / 180))
        * Z_SCALE :=
  shootBall_launch_formula ballC1 mapGray 0.707 (-0.707) 31.2 35 rfl
    (not_lt.mpr ((Real.le_sqrt' (by norm_num)).mpr (by norm_num)))

/-- Applied and target wind strength stay inside the configured band as
long as the strength draws stay in the unit interval. -/
lemma windTicks_strength_bounds (sigma : ℕ → ℝ × ℝ × ℝ) (dt : ℝ)
    (hs : ∀ n, 0 ≤ (sigma n).2.1 ∧ (sigma n).2.1 ≤ 1) (n : ℕ) :
    0 ≤ (windTicks sigma dt n).appliedStrength ∧
      (windTicks sigma dt n).appliedStrength ≤ MAX_WIND_STRENGTH ∧
      0 ≤ (windTicks sigma dt n).targetStrength ∧
      (windTicks sigma dt n).targetStrength ≤ MAX_WIND_STRENGTH := by
  induction n with
  | zero =>
    simp only [windTicks, initWind, MAX_WIND_STRENGTH]
    norm_num
  | succ n ih =>
    obtain ⟨h1, h2, h3, h4⟩ := ih
    obtain ⟨hu1, hu2⟩ := hs n
    rw [MAX_WIND_STRENGTH] at h2 h4 ⊢
    simp only [windTicks, updateWind, MAX_WIND_STRENGTH, WIND_SMOOTHNESS]
    split_ifs with ht
    · refine ⟨by nlinarith, by nlinarith, by nlinarith, by nlinarith⟩
    · refine ⟨by nlinarith, by nlinarith, h3, h4⟩

/-- C5: wind process invariants.  For every draw stream inside the unit
interval and every tick index: the applied strength lies in
[0, MAX_WIND_STRENGTH]; whenever the timer expires during a tick the new
timer lies in the configured jitter range [3,6]; and on a tick with no
re-randomization the gap between applied and target strength contracts by
the exact factor 1 - WIND_SMOOTHNESS under the exponential smoothing
update, in particular it never increases. -/
theorem wind_process_invariants (sigma : ℕ → ℝ × ℝ × ℝ) (dt : ℝ)
    (hs : ∀ n, 0 ≤ (sigma n).1 ∧ (sigma n).1 ≤ 1 ∧
      0 ≤ (sigma n).2.1 ∧ (sigma n).2.1 ≤ 1 ∧
      0 ≤ (sigma n).2.2 ∧ (sigma n).2.2 ≤ 1) (n : ℕ) :
    (0 ≤ (windTicks sigma dt n).appliedStrength ∧
      (windTicks sigma dt n).appliedStrength ≤ MAX_WIND_STRENGTH) ∧
    ((windTicks sigma dt n).timer - dt ≤ 0 →
      3 ≤ (windTicks sigma dt (n + 1)).timer ∧
        (windTicks sigma dt (n + 1)).timer ≤ 6) ∧
    (0 < (windTicks sigma dt n).timer - dt →
      |(windTicks sigma dt (n + 1)).appliedStrength
          - (windTicks sigma dt (n + 1)).targetStrength|
        = (1 - WIND_SMOOTHNESS)
          * |(windTicks sigma dt n).appliedStrength
              - (windTicks sigma dt n).targetStrength| ∧
      |(windTicks sigma dt (n + 1)).appliedStrength
          - (windTicks sigma dt (n + 1)).targetStrength|
        ≤ |(windTicks sigma dt n).appliedStrength
            - (windTicks sigma dt n).targetStrength|) := by
  obtain ⟨hb1, hb2, -, -⟩ :=
    windTicks_strength_bounds sigma dt (fun m => ⟨(hs m).2.2.1, (hs m).2.2.2.1⟩) n
  refine ⟨⟨hb1, hb2⟩, ?_, ?_⟩
  · intro htimer
    obtain ⟨-, -, -, -, hu5, hu6⟩ := hs n
    simp only [windTicks, updateWind, if_pos htimer]
    constructor <;> nlinarith
  · intro htimer
    have hne : ¬ (windTicks sigma dt n).timer - dt ≤ 0 := not_le.mpr htimer
    simp only [windTicks, updateWind, if_neg hne]
    have key : (windTicks sigma dt n).appliedStrength
          + ((windTicks sigma dt n).targetStrength
              - (windTicks sigma dt n).appliedStrength) * WIND_SMOOTHNESS
          - (windTicks sigma dt n).targetStrength
        = (1 - WIND_SMOOTHNESS)
          * ((windTicks sigma dt n).appliedStrength
              - (windTicks sigma dt n).targetStrength) := by ring
    rw [key, abs_mul, abs_of_pos (by rw [WIND_SMOOTHNESS]; norm_num)]
    refine ⟨rfl, ?_⟩
    have habs : 0 ≤ |(windTicks sigma dt n).appliedStrength
        - (windTicks sigma dt n).targetStrength| := abs_nonneg _
    rw [WIND_SMOOTHNESS]
    nlinarith

/-- Witness for C5 at the constant-zero draw stream after three ticks. -/
theorem wind_process_invariants_witness :
    0 ≤ (windTicks constStream DT 3).appliedStrength ∧
      (windTicks constStream DT 3).appliedStrength ≤ MAX_WIND_STRENGTH :=
  (wind_process_invariants constStream DT
    (fun _ => by norm_num [constStream]) 3).1

/-- C3: a moving ball whose tick ends at ground level on hazard terrain is
reverted exactly to its last ground position with all velocity zeroed,
inAir and isMoving cleared, and nothing else of the tick applied after
that (the early return skips drag, the rolling pass, the clamp and the
stop checks; only the spin damping from earlier in the tick remains). -/
theorem updateBall_hazard_revert (ball : Ball) (map : Image) (wind : Wind) (dt : ℝ)
    (hmov : ball.isMoving = true)
    (hz : ball.z + (ball.vz - GRAVITY_ACCEL * dt) * dt ≤ 0)
    (hh : (getTerrainAt map (ball.x + ball.vx * dt) (ball.y + ball.vy * dt)).isHazard
      = true) :
    updateBall ball map wind dt =
      { ball with
        x := ball.lastX, y := ball.lastY, z := 0
        vx := 0, vy := 0, vz := 0
        spinX := ball.spinX * (if ball.inAir = true then SPIN_AIR_DAMP else SPIN_GROUND_DAMP)
        spinY := ball.spinY * (if ball.inAir = true then SPIN_AIR_DAMP else SPIN_GROUND_DAMP)
        spinZ := ball.spinZ * (if ball.inAir = true then SPIN_AIR_DAMP else SPIN_GROUND_DAMP)
        inAir := false, isMoving := false } := by
  have hnm : ¬ ball.isMoving = false := by simp [hmov]
  have hz1 : decide (ball.z + (ball.vz - GRAVITY_ACCEL * dt) * dt > 1) = false :=
    decide_eq_false (by intro hc; linarith)
  simp only [updateBall, if_neg hnm, if_pos hz, hh, hz1, Bool.false_or, if_true]

/-- Witness for C3: a concrete airborne ball landing on an all-hazard map
reverts to its last ground position (250,240) with zeroed velocity. -/
theorem updateBall_hazard_revert_witness :
    updateBall ballC3 mapBlue initWind DT =
      { ballC3 with
        x := ballC3.lastX, y := ballC3.lastY, z := 0
        vx := 0, vy := 0, vz := 0
        spinX := ballC3.spinX * (if ballC3.inAir = true then SPIN_AIR_DAMP else SPIN_GROUND_DAMP)
        spinY := ballC3.spinY * (if ballC3.inAir = true then SPIN_AIR_DAMP else SPIN_GROUND_DAMP)
        spinZ := ballC3.spinZ * (if ballC3.inAir = true then SPIN_AIR_DAMP else SPIN_GROUND_DAMP)
        inAir := false, isMoving := false } :=
  updateBall_hazard_revert ballC3 mapBlue initWind DT rfl
    (by norm_num [ballC3, GRAVITY_ACCEL, DT]) rfl

/-- Every terrain query is the classifier applied to some sampled color. -/
lemma getTerrainAt_eq_props (map : Image) (x y : ℝ) :
    ∃ c : Color, getTerrainAt map x y = getTerrainProps c :=
  ⟨_, rfl⟩

/-- Any classifier output that is not hazard, sand or solid has bounce
factor at least 0.55 (the classifier only ever emits 0.60, 0.75 or 0.55
on such bands). -/
lemma getTerrainProps_bounce_floor (c : Color)
    (h1 : (getTerrainProps c).isHazard = false)
    (h2 : (getTerrainProps c).isSand = false)
    (h3 : (getTerrainProps c).isSolid = false) :
    0.55 ≤ (getTerrainProps c).bounceFactor := by
  simp only [getTerrainProps] at *
  split_ifs at * <;> simp_all [defaultProps] <;> norm_num

/-- C2: every moving ball whose tick ends at ground level on normal
terrain (not hazard, sand or solid) with bounce factor above the 0.01
threshold and downward impact speed above the 10 minimum bounces: the
post-tick vertical speed is exactly bounceFactor times the impact speed,
the ball is airborne afterwards iff that product exceeds the air-reentry
threshold 4, and air drag is not applied this tick (the horizontal
velocity is exactly the wind- and, when in flight, Magnus-adjusted value
scaled once by rollDamping, with no drag factor in either case). -/
theorem updateBall_bounce_energy (ball : Ball) (map : Image) (wind : Wind) (dt : ℝ)
    (hmov : ball.isMoving = true)
    (hz : ball.z + (ball.vz - GRAVITY_ACCEL * dt) * dt ≤ 0)
    (hvz : ball.vz - GRAVITY_ACCEL * dt < -10)
    (hth : (getTerrainAt map (ball.x + ball.vx * dt) (ball.y + ball.vy * dt)).isHazard
      = false)
    (hts : (getTerrainAt map (ball.x + ball.vx * dt) (ball.y + ball.vy * dt)).isSand
      = false)
    (htl : (getTerrainAt map (ball.x + ball.vx * dt) (ball.y + ball.vy * dt)).isSolid
      = false)
    (htb : (getTerrainAt map (ball.x + ball.vx * dt) (ball.y + ball.vy * dt)).bounceFactor
      > 0.01) :
    (updateBall ball map wind dt).vz
      = -(ball.vz - GRAVITY_ACCEL * dt)
        * (getTerrainAt map (ball.x + ball.vx * dt) (ball.y + ball.vy * dt)).bounceFactor ∧
    ((updateBall ball map wind dt).inAir = true ↔
      -(ball.vz - GRAVITY_ACCEL * dt)
        * (getTerrainAt map (ball.x + ball.vx * dt) (ball.y + ball.vy * dt)).bounceFactor
        > 4) ∧
    (updateBall ball map wind dt).vx
      = (if ball.inAir = true then
          ball.vx + wind.dirX * wind.appliedStrength * dt * 1
            + clampf (-ball.spinY * (ball.vy + wind.dirY * wind.appliedStrength * dt * 1)
                * MAGNUS_COEF) (-MAGNUS_MAX) MAGNUS_MAX
        else ball.vx + wind.dirX * wind.appliedStrength * dt * GROUND_WIND_FACTOR)
        * (getTerrainAt map (ball.x + ball.vx * dt) (ball.y + ball.vy * dt)).rollDamping ∧
    (updateBall ball map wind dt).vy
      = (if ball.inAir = true then
          ball.vy + wind.dirY * wind.appliedStrength * dt * 1
            + clampf (ball.spinY * (ball.vx + wind.dirX * wind.appliedStrength * dt * 1)
                * MAGNUS_COEF) (-MAGNUS_MAX) MAGNUS_MAX
        else ball.vy + wind.dirY * wind.appliedStrength * dt * GROUND_WIND_FACTOR)
        * (getTerrainAt map (ball.x + ball.vx * dt) (ball.y + ball.vy * dt)).rollDamping := by
  have hfb : (0.55:ℝ)
      ≤ (getTerrainAt map (ball.x + ball.vx * dt) (ball.y + ball.vy * dt)).bounceFactor := by
    obtain ⟨c, hc⟩ := getTerrainAt_eq_props map (ball.x + ball.vx * dt) (ball.y + ball.vy * dt)
    rw [hc] at hth hts htl ⊢
    exact getTerrainProps_bounce_floor c hth hts htl
  have hvzB : (4:ℝ)
      < -(ball.vz - GRAVITY_ACCEL * dt)
        * (getTerrainAt map (ball.x + ball.vx * dt) (ball.y + ball.vy * dt)).bounceFactor := by
    have h10 : (10:ℝ) < -(ball.vz - GRAVITY_ACCEL * dt) := by linarith
    nlinarith
  have hnm : ¬ ball.isMoving = false := by simp [hmov]
  have hk6 : ¬ |ball.vz - GRAVITY_ACCEL * dt| < 6 := by
    rw [abs_of_neg (by linarith)]; intro hc; linarith
  have hinAirB : decide (-(ball.vz - GRAVITY_ACCEL * dt)
      * (getTerrainAt map (ball.x + ball.vx * dt) (ball.y + ball.vy * dt)).bounceFactor
      > 4) = true := decide_eq_true hvzB
  have hst : ¬ |-(ball.vz - GRAVITY_ACCEL * dt)
      * (getTerrainAt map (ball.x + ball.vx * dt) (ball.y + ball.vy * dt)).bounceFactor|
      < 0.2 := by
    rw [abs_of_pos (by linarith)]; intro hc; linarith
  have hzn : decide (ball.z + (ball.vz - GRAVITY_ACCEL * dt) * dt > 1) = false :=
    decide_eq_false (by intro hc; linarith)
  cases hb : ball.inAir with
  | false =>
    simp only [updateBall, ballFinish, if_neg hnm, hb, hzn, Bool.or_false, if_pos hz,
      if_neg hk6, hth, hts, htl, htb, hvz, hinAirB, hst, Bool.false_eq_true,
      Bool.true_eq_false, and_false, false_and, and_true, true_and, if_false, if_true,
      ite_false, ite_true, eq_self_iff_true, not_false_eq_true]
    simpa using hvzB
  | true =>
    simp only [updateBall, ballFinish, if_neg hnm, hb, Bool.or_true, if_pos hz,
      if_neg hk6, hth, hts, htl, htb, hvz, hinAirB, hst, Bool.false_eq_true,
      Bool.true_eq_false, and_false, false_and, and_true, true_and, if_false, if_true,
      ite_false, ite_true, eq_self_iff_true, not_false_eq_true]
    simpa using hvzB

/-- The uniformly gray fixture map classifies as default terrain at every
query point. -/
lemma getTerrainAt_mapGray (x y : ℝ) : getTerrainAt mapGray x y = defaultProps := by
  norm_num [getTerrainAt, GetImageColor, mapGray, cGray, getTerrainProps]

/-- Witness for C2: the concrete grounded rolling ball ballC2, whose tick
on the all-default map ends at ground level with vertical speed -12.8,
rebounds with vz = 12.8 * 0.60. -/
theorem updateBall_bounce_energy_witness :
    (updateBall ballC2 mapGray initWind DT).vz
      = -(ballC2.vz - GRAVITY_ACCEL * DT)
        * (getTerrainAt mapGray (ballC2.x + ballC2.vx * DT) (ballC2.y + ballC2.vy * DT)).bounceFactor ∧
    ((updateBall ballC2 mapGray initWind DT).inAir = true ↔
      -(ballC2.vz - GRAVITY_ACCEL * DT)
        * (getTerrainAt mapGray (ballC2.x + ballC2.vx * DT) (ballC2.y + ballC2.vy * DT)).bounceFactor
        > 4) ∧
    (updateBall ballC2 mapGray initWind DT).vx
      = (if ballC2.inAir = true then
          ballC2.vx + initWind.dirX * initWind.appliedStrength * DT * 1
            + clampf (-ballC2.spinY * (ballC2.vy + initWind.dirY * initWind.appliedStrength * DT * 1)
                * MAGNUS_COEF) (-MAGNUS_MAX) MAGNUS_MAX
        else ballC2.vx + initWind.dirX * initWind.appliedStrength * DT * GROUND_WIND_FACTOR)
        * (getTerrainAt mapGray (ballC2.x + ballC2.vx * DT) (ballC2.y + ballC2.vy * DT)).rollDamping ∧
    (updateBall ballC2 mapGray initWind DT).vy
      = (if ballC2.inAir = true then
          ballC2.vy + initWind.dirY * initWind.appliedStrength * DT * 1
            + clampf (ballC2.spinY * (ballC2.vx + initWind.dirX * initWind.appliedStrength * DT * 1)
                * MAGNUS_COEF) (-MAGNUS_MAX) MAGNUS_MAX
        else ballC2.vy + initWind.dirY * initWind.appliedStrength * DT * GROUND_WIND_FACTOR)
        * (getTerrainAt mapGray (ballC2.x + ballC2.vx * DT) (ballC2.y + ballC2.vy * DT)).rollDamping :=
  updateBall_bounce_energy ballC2 mapGray initWind DT rfl
    (by norm_num [ballC2, GRAVITY_ACCEL, DT])
    (by norm_num [ballC2, GRAVITY_ACCEL, DT])
    rfl rfl rfl
    (by rw [getTerrainAt_mapGray]; norm_num [defaultProps])

/-- A launch always sets isMoving. -/
lemma shootBall_isMoving (ball : Ball) (map : Image) (dirx diry power angleDeg : ℝ) :
    (shootBall ball map dirx diry power angleDeg).isMoving = true := rfl

/-- The player launch never touches the win flags. -/
lemma vsPlayerShoot_gameWon (map : Image) (sh : Option (ℝ × ℝ)) (s : GameState) :
    (vsPlayerShoot map sh s).gameWon = s.gameWon := by
  rcases sh with _ | ⟨dx, dy⟩
  · rfl
  · simp only [vsPlayerShoot]
    split_ifs <;> rfl

lemma vsPlayerShoot_aiWon (map : Image) (sh : Option (ℝ × ℝ)) (s : GameState) :
    (vsPlayerShoot map sh s).aiWon = s.aiWon := by
  rcases sh with _ | ⟨dx, dy⟩
  · rfl
  · simp only [vsPlayerShoot]
    split_ifs <;> rfl

/-- The player win check can only set the player flag, never clear it. -/
lemma vsCheckPlayerWin_gameWon_mono (s : GameState) (h : s.gameWon = true) :
    (vsCheckPlayerWin s).gameWon = true := by
  simp only [vsCheckPlayerWin]
  split_ifs <;> simp [h]

lemma vsCheckPlayerWin_aiWon (s : GameState) :
    (vsCheckPlayerWin s).aiWon = s.aiWon := by
  simp only [vsCheckPlayerWin]
  split_ifs <;> rfl

lemma vsCheckAiWin_gameWon (s : GameState) :
    (vsCheckAiWin s).gameWon = s.gameWon := by
  simp only [vsCheckAiWin]
  split_ifs <;> rfl

/-- The AI win check can only set the AI flag, never clear it. -/
lemma vsCheckAiWin_aiWon_mono (s : GameState) (h : s.aiWon = true) :
    (vsCheckAiWin s).aiWon = true := by
  simp only [vsCheckAiWin]
  split_ifs <;> simp [h]

lemma vsAiShoot_gameWon (map : Image) (cmd : Option AICommand) (s : GameState) :
    (vsAiShoot map cmd s).gameWon = s.gameWon := by
  rcases cmd with _ | c <;> simp only [vsAiShoot] <;> split_ifs <;> rfl

lemma vsAiShoot_aiWon (map : Image) (cmd : Option AICommand) (s : GameState) :
    (vsAiShoot map cmd s).aiWon = s.aiWon := by
  rcases cmd with _ | c <;> simp only [vsAiShoot] <;> split_ifs <;> rfl

lemma vsSwitchToPlayer_gameWon (s : GameState) :
    (vsSwitchToPlayer s).gameWon = s.gameWon := by
  simp only [vsSwitchToPlayer]; split_ifs <;> rfl

lemma vsSwitchToPlayer_aiWon (s : GameState) :
    (vsSwitchToPlayer s).aiWon = s.aiWon := by
  simp only [vsSwitchToPlayer]; split_ifs <;> rfl

lemma vsSwitchToAi_gameWon (s : GameState) :
    (vsSwitchToAi s).gameWon = s.gameWon := by
  simp only [vsSwitchToAi]; split_ifs <;> rfl

lemma vsSwitchToAi_aiWon (s : GameState) :
    (vsSwitchToAi s).aiWon = s.aiWon := by
  simp only [vsSwitchToAi]; split_ifs <;> rfl

/-- C8: in a VS-mode frame, each win flag is monotone: once set, neither
the win detection, the launches, the turn evaluation, the wind tick nor
the ball ticks clear it; only the explicit reset clears the flags. -/
theorem vs_win_flags_monotone (map : Image) (sh : Option (ℝ × ℝ))
    (cmd : Option AICommand) (u : ℝ × ℝ × ℝ) (dt : ℝ) (startPos : Vec2)
    (s : GameState) :
    (s.gameWon = true → (vsFrame map sh cmd u dt s).gameWon = true) ∧
    (s.aiWon = true → (vsFrame map sh cmd u dt s).aiWon = true) ∧
    (vsReset startPos s).gameWon = false ∧ (vsReset startPos s).aiWon = false := by
  refine ⟨?_, ?_, rfl, rfl⟩
  · intro hw
    have hfr : (vsFrame map sh cmd u dt s).gameWon = (vsLogic map sh cmd s).gameWon := rfl
    rw [hfr]
    unfold vsLogic
    rw [vsSwitchToAi_gameWon, vsSwitchToPlayer_gameWon, vsAiShoot_gameWon,
      vsCheckAiWin_gameWon]
    exact vsCheckPlayerWin_gameWon_mono _ (by rw [vsPlayerShoot_gameWon]; exact hw)
  · intro hw
    have hfr : (vsFrame map sh cmd u dt s).aiWon = (vsLogic map sh cmd s).aiWon := rfl
    rw [hfr]
    unfold vsLogic
    rw [vsSwitchToAi_aiWon, vsSwitchToPlayer_aiWon, vsAiShoot_aiWon]
    exact vsCheckAiWin_aiWon_mono _
      (by rw [vsCheckPlayerWin_aiWon, vsPlayerShoot_aiWon]; exact hw)

/-- Witness for C8: a state with both flags set keeps them through a
frame, and the reset clears them. -/
theorem vs_win_flags_monotone_witness :
    (vsFrame mapGray none none (0, 0, 0) DT
      { ball := initBall ⟨100, 100⟩, aiBall := initBall ⟨100, 100⟩, wind := initWind,
        strokes := 3, playerStrokes := 3, aiStrokes := 2, gameWon := true,
        aiWon := true, holePos := ⟨500, 500⟩, turn := TurnType.player }).gameWon = true ∧
    (vsFrame mapGray none none (0, 0, 0) DT
      { ball := initBall ⟨100, 100⟩, aiBall := initBall ⟨100, 100⟩, wind := initWind,
        strokes := 3, playerStrokes := 3, aiStrokes := 2, gameWon := true,
        aiWon := true, holePos := ⟨500, 500⟩, turn := TurnType.player }).aiWon = true ∧
    (vsReset ⟨100, 100⟩
      { ball := initBall ⟨100, 100⟩, aiBall := initBall ⟨100, 100⟩, wind := initWind,
        strokes := 3, playerStrokes := 3, aiStrokes := 2, gameWon := true,
        aiWon := true, holePos := ⟨500, 500⟩, turn := TurnType.player }).gameWon = false ∧
    (vsReset ⟨100, 100⟩
      { ball := initBall ⟨100, 100⟩, aiBall := initBall ⟨100, 100⟩, wind := initWind,
        strokes := 3, playerStrokes := 3, aiStrokes := 2, gameWon := true,
        aiWon := true, holePos := ⟨500, 500⟩, turn := TurnType.player }).aiWon = false :=
  ⟨(vs_win_flags_monotone mapGray none none (0, 0, 0) DT ⟨100, 100⟩ _).1 rfl,
   (vs_win_flags_monotone mapGray none none (0, 0, 0) DT ⟨100, 100⟩ _).2.1 rfl,
   (vs_win_flags_monotone mapGray none none (0, 0, 0) DT ⟨100, 100⟩ _).2.2.1,
   (vs_win_flags_monotone mapGray none none (0, 0, 0) DT ⟨100, 100⟩ _).2.2.2⟩

/-! Behavioral lemmas for the individual VS-mode turn operations. -/

lemma vsPlayerShoot_none (map : Image) (s : GameState) :
    vsPlayerShoot map none s = s := rfl

lemma vsPlayerShoot_fires (map : Image) (dx dy : ℝ) (s : GameState)
    (h1 : s.turn = TurnType.player) (h2 : s.ball.isMoving = false)
    (h3 : s.gameWon = false)
    (hp1 : Real.sqrt (dx * dx + dy * dy) > 5)
    (hp2 : ¬ Real.sqrt (dx * dx + dy * dy) > MAX_DRAG_DISTANCE) :
    vsPlayerShoot map (some (dx, dy)) s =
      { s with
        ball := shootBall s.ball map (dx / (Real.sqrt (dx * dx + dy * dy) + 1e-6))
          (dy / (Real.sqrt (dx * dx + dy * dy) + 1e-6))
          (Real.sqrt (dx * dx + dy * dy)) s.ball.angle
        strokes := s.strokes + 1
        playerStrokes := s.playerStrokes + 1
        turn := TurnType.ai } := by
  simp only [vsPlayerShoot]
  rw [if_pos ⟨h1, h2, h3⟩, if_neg hp2, if_pos hp1]

lemma vsCheckPlayerWin_skip (s : GameState)
    (h : ¬ (s.ball.isMoving = false ∧ s.gameWon = false ∧
      isNearHole s.ball.x s.ball.y s.holePos)) :
    vsCheckPlayerWin s = s := by
  simp only [vsCheckPlayerWin]; rw [if_neg h]

lemma vsCheckPlayerWin_fires (s : GameState) (h1 : s.ball.isMoving = false)
    (h2 : s.gameWon = false) (h3 : isNearHole s.ball.x s.ball.y s.holePos) :
    vsCheckPlayerWin s =
      { s with
        gameWon := true
        turn := if s.aiWon = false then TurnType.ai else s.turn } := by
  simp only [vsCheckPlayerWin]; rw [if_pos ⟨h1, h2, h3⟩]

lemma vsCheckAiWin_skip (s : GameState)
    (h : ¬ (s.aiBall.isMoving = false ∧ s.aiWon = false ∧
      isNearHole s.aiBall.x s.aiBall.y s.holePos)) :
    vsCheckAiWin s = s := by
  simp only [vsCheckAiWin]; rw [if_neg h]

lemma vsAiShoot_none (map : Image) (s : GameState) :
    vsAiShoot map none s = s := by
  simp only [vsAiShoot]; split_ifs <;> rfl

lemma vsAiShoot_fires (map : Image) (c : AICommand) (s : GameState)
    (h1 : s.turn = TurnType.ai) (h2 : s.aiBall.isMoving = false)
    (h3 : s.aiWon = false) :
    vsAiShoot map (some c) s =
      { s with
        aiBall := shootBall s.aiBall map c.dirx c.diry c.power c.angle
        aiStrokes := s.aiStrokes + 1
        turn := if s.gameWon = false then TurnType.player else s.turn } := by
  simp only [vsAiShoot]; rw [if_pos ⟨h1, h2, h3⟩]

lemma vsSwitchToPlayer_skip (s : GameState)
    (h : ¬ (s.turn = TurnType.ai ∧ s.aiWon = true ∧ s.gameWon = false ∧
      s.aiBall.isMoving = false)) :
    vsSwitchToPlayer s = s := by
  simp only [vsSwitchToPlayer]; rw [if_neg h]

lemma vsSwitchToAi_skip (s : GameState)
    (h : ¬ (s.turn = TurnType.player ∧ s.gameWon = true ∧ s.aiWon = false ∧
      s.ball.isMoving = false)) :
    vsSwitchToAi s = s := by
  simp only [vsSwitchToAi]; rw [if_neg h]

/-- Frame evaluation around a player launch: the turn passes to the AI. -/
lemma vsLogic_player_launch (map : Image) (dx dy : ℝ) (s : GameState)
    (hturn : s.turn = TurnType.player) (hrest : s.ball.isMoving = false)
    (hg : s.gameWon = false) (ha : s.aiWon = false)
    (hainear : ¬ isNearHole s.aiBall.x s.aiBall.y s.holePos)
    (hp1 : Real.sqrt (dx * dx + dy * dy) > 5)
    (hp2 : ¬ Real.sqrt (dx * dx + dy * dy) > MAX_DRAG_DISTANCE) :
    vsLogic map (some (dx, dy)) none s =
      { s with
        ball := shootBall s.ball map (dx / (Real.sqrt (dx * dx + dy * dy) + 1e-6))
          (dy / (Real.sqrt (dx * dx + dy * dy) + 1e-6))
          (Real.sqrt (dx * dx + dy * dy)) s.ball.angle
        strokes := s.strokes + 1
        playerStrokes := s.playerStrokes + 1
        turn := TurnType.ai } := by
  unfold vsLogic
  rw [vsPlayerShoot_fires map dx dy s hturn hrest hg hp1 hp2]
  rw [vsCheckPlayerWin_skip _ (by intro hc; have h := hc.1; simp [shootBall_isMoving] at h)]
  rw [vsCheckAiWin_skip _ (by intro hc; exact hainear (by simpa using hc.2.2))]
  rw [vsAiShoot_none]
  rw [vsSwitchToPlayer_skip _ (by intro hc; have h := hc.2.1; simp [ha] at h)]
  rw [vsSwitchToAi_skip _ (by intro hc; have h := hc.1; simp at h)]

/-- Frame evaluation around an AI launch while the player has not won:
the turn passes back to the player. -/
lemma vsLogic_ai_launch (map : Image) (c : AICommand) (s : GameState)
    (hturn : s.turn = TurnType.ai) (hrest : s.aiBall.isMoving = false)
    (ha : s.aiWon = false) (hg : s.gameWon = false)
    (hmov : s.ball.isMoving = true)
    (hainear : ¬ isNearHole s.aiBall.x s.aiBall.y s.holePos) :
    vsLogic map none (some c) s =
      { s with
        aiBall := shootBall s.aiBall map c.dirx c.diry c.power c.angle
        aiStrokes := s.aiStrokes + 1
        turn := TurnType.player } := by
  unfold vsLogic
  rw [vsPlayerShoot_none]
  rw [vsCheckPlayerWin_skip _ (by intro hc; have h := hc.1; simp [hmov] at h)]
  rw [vsCheckAiWin_skip _ (by intro hc; exact hainear hc.2.2)]
  rw [vsAiShoot_fires map c s hturn hrest ha]
  rw [vsSwitchToPlayer_skip _ (by intro hc; have h := hc.1; simp [hg] at h)]
  rw [vsSwitchToAi_skip _ (by intro hc; have h := hc.2.1; simp [hg] at h)]
  simp [hg]

/-- Frame evaluation with no launch while the player ball has settled in
the hole and the AI has not finished: the player flag sets and the turn
forces to the AI. -/
lemma vsLogic_player_settles_win (map : Image) (s : GameState)
    (hrest : s.ball.isMoving = false) (hg : s.gameWon = false)
    (hnear : isNearHole s.ball.x s.ball.y s.holePos) (ha : s.aiWon = false)
    (hainear : ¬ isNearHole s.aiBall.x s.aiBall.y s.holePos) :
    vsLogic map none none s = { s with gameWon := true, turn := TurnType.ai } := by
  unfold vsLogic
  rw [vsPlayerShoot_none]
  rw [vsCheckPlayerWin_fires s hrest hg hnear]
  rw [vsCheckAiWin_skip _ (by intro hc; exact hainear (by simpa using hc.2.2))]
  rw [vsAiShoot_none]
  rw [vsSwitchToPlayer_skip _ (by intro hc; have h := hc.2.1; simp [ha] at h)]
  rw [vsSwitchToAi_skip _ (by intro hc; have h := hc.1; simp [ha] at h)]
  simp [ha]

set_option maxHeartbeats 2000000 in
/-- C4: the VS-mode turn scenario.  Competitor A launches (turn passes to
B); B launches while A has not won (turn passes back to A); A's ball then
comes to rest within the win radius while B has not finished — A's win
flag sets and the turn indicator equals B (the AI) at the end of that
tick's evaluation. -/
theorem vs_turn_scenario (map : Image) (dx dy : ℝ) (c : AICommand)
    (s0 : GameState) (b1 a1 b2 a2 : Ball)
    (h0turn : s0.turn = TurnType.player) (h0g : s0.gameWon = false)
    (h0a : s0.aiWon = false) (h0rest : s0.ball.isMoving = false)
    (h0ai : ¬ isNearHole s0.aiBall.x s0.aiBall.y s0.holePos)
    (hpow : Real.sqrt (dx * dx + dy * dy) > 5)
    (hpow2 : ¬ Real.sqrt (dx * dx + dy * dy) > MAX_DRAG_DISTANCE)
    (hb1 : b1.isMoving = true) (ha1 : a1.isMoving = false)
    (ha1far : ¬ isNearHole a1.x a1.y s0.holePos)
    (hb2 : b2.isMoving = false) (hb2near : isNearHole b2.x b2.y s0.holePos)
    (ha2far : ¬ isNearHole a2.x a2.y s0.holePos) :
    (vsLogic map (some (dx, dy)) none s0).turn = TurnType.ai ∧
    (vsLogic map none (some c)
        (withBalls (vsLogic map (some (dx, dy)) none s0) b1 a1)).turn
      = TurnType.player ∧
    (vsLogic map none none
        (withBalls (vsLogic map none (some c)
          (withBalls (vsLogic map (some (dx, dy)) none s0) b1 a1)) b2 a2)).gameWon
      = true ∧
    (vsLogic map none none
        (withBalls (vsLogic map none (some c)
          (withBalls (vsLogic map (some (dx, dy)) none s0) b1 a1)) b2 a2)).turn
      = TurnType.ai := by
  have e1 := vsLogic_player_launch map dx dy s0 h0turn h0rest h0g h0a h0ai hpow hpow2
  have hturn1 : (withBalls (vsLogic map (some (dx, dy)) none s0) b1 a1).turn
      = TurnType.ai := by
    show (vsLogic map (some (dx, dy)) none s0).turn = TurnType.ai
    rw [e1]
  have hg1 : (withBalls (vsLogic map (some (dx, dy)) none s0) b1 a1).gameWon = false := by
    show (vsLogic map (some (dx, dy)) none s0).gameWon = false
    rw [e1]; exact h0g
  have ha1w : (withBalls (vsLogic map (some (dx, dy)) none s0) b1 a1).aiWon = false := by
    show (vsLogic map (some (dx, dy)) none s0).aiWon = false
    rw [e1]; exact h0a
  have hhp1 : (withBalls (vsLogic map (some (dx, dy)) none s0) b1 a1).holePos
      = s0.holePos := by
    show (vsLogic map (some (dx, dy)) none s0).holePos = s0.holePos
    rw [e1]
  have hnear1 : ¬ isNearHole a1.x a1.y
      (withBalls (vsLogic map (some (dx, dy)) none s0) b1 a1).holePos := by
    rw [hhp1]; exact ha1far
  have e2 := vsLogic_ai_launch map c
    (withBalls (vsLogic map (some (dx, dy)) none s0) b1 a1)
    hturn1 ha1 ha1w hg1 hb1 hnear1
  have hg2 : (withBalls (vsLogic map none (some c)
      (withBalls (vsLogic map (some (dx, dy)) none s0) b1 a1)) b2 a2).gameWon
      = false := by
    show (vsLogic map none (some c)
      (withBalls (vsLogic map (some (dx, dy)) none s0) b1 a1)).gameWon = false
    rw [e2]; exact hg1
  have ha2w : (withBalls (vsLogic map none (some c)
      (withBalls (vsLogic map (some (dx, dy)) none s0) b1 a1)) b2 a2).aiWon
      = false := by
    show (vsLogic map none (some c)
      (withBalls (vsLogic map (some (dx, dy)) none s0) b1 a1)).aiWon = false
    rw [e2]; exact ha1w
  have hhp2 : (withBalls (vsLogic map none (some c)
      (withBalls (vsLogic map (some (dx, dy)) none s0) b1 a1)) b2 a2).holePos
      = s0.holePos := by
    show (vsLogic map none (some c)
      (withBalls (vsLogic map (some (dx, dy)) none s0) b1 a1)).holePos = s0.holePos
    rw [e2]; exact hhp1
  have hnear2 : isNearHole b2.x b2.y
      (withBalls (vsLogic map none (some c)
        (withBalls (vsLogic map (some (dx, dy)) none s0) b1 a1)) b2 a2).holePos := by
    rw [hhp2]; exact hb2near
  have hanear2 : ¬ isNearHole a2.x a2.y
      (withBalls (vsLogic map none (some c)
        (withBalls (vsLogic map (some (dx, dy)) none s0) b1 a1)) b2 a2).holePos := by
    rw [hhp2]; exact ha2far
  have e3 := vsLogic_player_settles_win map
    (withBalls (vsLogic map none (some c)
      (withBalls (vsLogic map (some (dx, dy)) none s0) b1 a1)) b2 a2)
    hb2 hg2 hnear2 ha2w hanear2
  exact ⟨by rw [e1], by rw [e2], by rw [e3], by rw [e3]⟩

/-- A point whose squared distance to the hole is at least 225 is not
within the 15-unit win radius. -/
lemma not_near_far (x y hx hy : ℝ)
    (h : (x - hx) * (x - hx) + (y - hy) * (y - hy) ≥ 225) :
    ¬ isNearHole x y ⟨hx, hy⟩ := by
  intro hc
  have h2 := (Real.sqrt_lt' (by norm_num : (0:ℝ) < 15)).mp hc.2
  norm_num at h2
  linarith

/-- A ball exactly at a hole with nonnegative x is within the win radius. -/
lemma near_at_hole (hx hy : ℝ) (hpos : ¬ hx < 0) : isNearHole hx hy ⟨hx, hy⟩ := by
  refine ⟨hpos, ?_⟩
  rw [show (hx - hx) * (hx - hx) + (hy - hy) * (hy - hy) = 0 by ring, Real.sqrt_zero]
  norm_num

/-- Initial VS-mode match state fixture for the turn-scenario witness. -/
noncomputable def s0C4 : GameState :=
  { ball := initBall ⟨100, 100⟩, aiBall := initBall ⟨100, 100⟩, wind := initWind,
    strokes := 0, playerStrokes := 0, aiStrokes := 0, gameWon := false,
    aiWon := false, holePos := ⟨500, 500⟩, turn := TurnType.player }

/-- A fixed AI shot command fixture. -/
noncomputable def aiCmd : AICommand :=
  { dirx := 0, diry := -1, angle := 45, power := 50, spinx := 0, spiny := 0 }

set_option maxHeartbeats 2000000 in
/-- Witness for C4 at concrete states: hole at (500,500), both
competitors starting at (100,100), a straight-up player drag of length
100, A's ball settling exactly at the hole in the third evaluated frame. -/
theorem vs_turn_scenario_witness :
    (vsLogic mapGray (some (0, 100)) none s0C4).turn = TurnType.ai ∧
    (vsLogic mapGray none (some aiCmd)
        (withBalls (vsLogic mapGray (some (0, 100)) none s0C4) ballC2
          (initBall ⟨100, 100⟩))).turn
      = TurnType.player ∧
    (vsLogic mapGray none none
        (withBalls (vsLogic mapGray none (some aiCmd)
          (withBalls (vsLogic mapGray (some (0, 100)) none s0C4) ballC2
            (initBall ⟨100, 100⟩))) (initBall ⟨500, 500⟩)
          (initBall ⟨100, 100⟩))).gameWon
      = true ∧
    (vsLogic mapGray none none
        (withBalls (vsLogic mapGray none (some aiCmd)
          (withBalls (vsLogic mapGray (some (0, 100)) none s0C4) ballC2
            (initBall ⟨100, 100⟩))) (initBall ⟨500, 500⟩)
          (initBall ⟨100, 100⟩))).turn
      = TurnType.ai :=
  vs_turn_scenario mapGray 0 100 aiCmd s0C4 ballC2 (initBall ⟨100, 100⟩)
    (initBall ⟨500, 500⟩) (initBall ⟨100, 100⟩)
    rfl rfl rfl rfl
    (not_near_far 100 100 500 500 (by norm_num))
    (by rw [show (0:ℝ) * 0 + 100 * 100 = 100 ^ 2 by norm_num,
      Real.sqrt_sq (by norm_num : (0:ℝ) ≤ 100)]; norm_num)
    (by rw [show (0:ℝ) * 0 + 100 * 100 = 100 ^ 2 by norm_num,
      Real.sqrt_sq (by norm_num : (0:ℝ) ≤ 100), MAX_DRAG_DISTANCE]; norm_num)
    rfl rfl
    (not_near_far 100 100 500 500 (by norm_num))
    rfl
    (near_at_hole 500 500 (by norm_num))
    (not_near_far 100 100 500 500 (by norm_num))

end Golfero
